import Mathlib

/-!
Verification development for the `uvgo` Go package (`uv.go`), a thin wrapper
that runs Python scripts through the external `uv` tool.

Modelling conventions (shallow embedding):
* Go strings are `List Char` (sequences of Unicode code points).
* `time.Duration` is `Int` (nanoseconds).
* Effectful steps (the `os.Stat` call, `os.ReadFile`, and the behaviour of
  the spawned subprocess inside `cmd.Run()`) are oracles passed in as
  explicit arguments (`StatOutcome`, `Option (List Char)`, `SysOutcome`); the
  functions of the package are then pure functions of the configuration, the
  inputs and those oracles.
* A Go `nil`-pointer dereference (a runtime panic) is the `Outcome.panic`
  value; ordinary returns are `Outcome.ok`.
-/

/-- Convert a Lean string literal to the `List Char` representation used for
Go strings throughout this development. -/
def strL (s : String) : List Char := s.toList

/-- Go `unicode.IsSpace`: the Unicode White_Space code points
(U+0009–U+000D, U+0020, U+0085, U+00A0, U+1680, U+2000–U+200A, U+2028,
U+2029, U+202F, U+205F, U+3000).  `strings.TrimSpace` trims exactly these. -/
def goIsSpace (c : Char) : Bool :=
  let n := c.toNat
  (Nat.ble 9 n && Nat.ble n 13) || n == 32 || n == 0x85 || n == 0xA0 ||
    n == 0x1680 || (Nat.ble 0x2000 n && Nat.ble n 0x200A) || n == 0x2028 ||
    n == 0x2029 || n == 0x202F || n == 0x205F || n == 0x3000

/-- Go `strings.TrimSpace`: remove leading and trailing white space. -/
def trimSpace (s : List Char) : List Char :=
  ((s.dropWhile goIsSpace).reverse.dropWhile goIsSpace).reverse

/-- The per-line carriage-return stripping performed by `bufio.ScanLines`:
a single trailing `'\r'` is dropped from each scanned line. -/
def dropCR (l : List Char) : List Char :=
  match l.getLast? with
  | some '\r' => l.dropLast
  | _ => l

/-- Worker for `scanLines`; `acc` holds the (reversed) characters of the
line being accumulated.  Mirrors the token loop of `bufio.Scanner` with the
`bufio.ScanLines` split function: a token is emitted at each `'\n'`, the
final fragment is emitted iff it is non-empty input remainder, and each
token has a trailing `'\r'` stripped. -/
def scanLinesAux : List Char → List Char → List (List Char)
  | [], acc => [dropCR acc.reverse]
  | c :: rest, acc =>
    if c = '\n' then
      dropCR acc.reverse :: (if rest.isEmpty then [] else scanLinesAux rest [])
    else
      scanLinesAux rest (c :: acc)

/-- The sequence of lines produced by `bufio.NewScanner(strings.NewReader s)`
with the default `ScanLines` split function, as collected by the
`for scanner.Scan()` loop of `validateJSONPrint`. -/
def scanLines (s : List Char) : List (List Char) :=
  if s.isEmpty then [] else scanLinesAux s []

/-- Go `strings.Contains s pat`: `pat` occurs as a contiguous substring. -/
def containsSub (s pat : List Char) : Bool :=
  s.tails.any fun t => pat.isPrefixOf t

/-- The fixed marker substring searched for by `validateJSONPrint`. -/
def markerL : List Char := strL "print(json.dumps"

/-- The `lastNonEmptyLine` computation of `validateJSONPrint`: walk the
collected lines from the end and keep the first whose `TrimSpace` is
non-empty (the kept value is the trimmed line, as in the source); the empty
string if every line is blank. -/
def lastNonEmptyLine (lines : List (List Char)) : List Char :=
  match lines.reverse.find? (fun l => !(trimSpace l).isEmpty) with
  | some l => trimSpace l
  | none => []

/-- The two error values `validateJSONPrint` can produce: the
"empty script provided" error and the
"script must end with print(json.dumps(...)) for structured output" error. -/
inductive ValidateError where
  | emptyScript
  | invalidFormat

deriving instance DecidableEq for ValidateError

/-- Embedding of `validateJSONPrint` (uv.go lines 227–251): reject an
empty/all-whitespace script, otherwise scan the lines, find the last
non-blank line and require it to contain the marker. -/
def validateJSONPrint (script : List Char) : Option ValidateError :=
  if trimSpace script = [] then some .emptyScript
  else if containsSub (lastNonEmptyLine (scanLines script)) markerL then none
  else some .invalidFormat

/-- The `Runner` configuration record (uv.go lines 16–24). -/
structure Runner where
  pythonVersion : List Char
  extraFlags : List (List Char)
  timeout : Int
  env : List (List Char)
  workDir : List Char
  dependencies : List (List Char)
  scriptArgs : List (List Char)

deriving instance DecidableEq for Runner

/-- The runner value constructed by `New` before options are applied:
all fields zero, timeout 30 seconds (in nanoseconds). -/
def initRunner : Runner :=
  { pythonVersion := []
    extraFlags := []
    timeout := 30 * 1000000000
    env := []
    workDir := []
    dependencies := []
    scriptArgs := [] }

/-- Apply functional options in order, as the loop in `New` does. -/
def applyOptions (r : Runner) (opts : List (Runner → Runner)) : Runner :=
  opts.foldl (fun r o => o r) r

/-- Embedding of `New` (uv.go lines 30–41).  The `exec.LookPath "uv"`
outcome is the boolean oracle `uvFound`; on failure `New` returns an error
(modelled as `none`), otherwise the default runner with the options
applied in order. -/
def New (uvFound : Bool) (opts : List (Runner → Runner)) : Option Runner :=
  if uvFound then some (applyOptions initRunner opts) else none

/-- Option `WithPython` (uv.go line 44). -/
def WithPython (version : List Char) : Runner → Runner :=
  fun r => { r with pythonVersion := version }

/-- Option `WithExtraFlags` (uv.go line 49). -/
def WithExtraFlags (flags : List (List Char)) : Runner → Runner :=
  fun r => { r with extraFlags := flags }

/-- Option `WithTimeout` (uv.go line 54). -/
def WithTimeout (t : Int) : Runner → Runner :=
  fun r => { r with timeout := t }

/-- Option `WithEnv` (uv.go line 59). -/
def WithEnv (env : List (List Char)) : Runner → Runner :=
  fun r => { r with env := env }

/-- Option `WithWorkDir` (uv.go line 64). -/
def WithWorkDir (workDir : List Char) : Runner → Runner :=
  fun r => { r with workDir := workDir }

/-- Option `WithDependencies` (uv.go line 69). -/
def WithDependencies (deps : List (List Char)) : Runner → Runner :=
  fun r => { r with dependencies := deps }

/-- Option `WithScriptArgs` (uv.go line 74). -/
def WithScriptArgs (args : List (List Char)) : Runner → Runner :=
  fun r => { r with scriptArgs := args }

/-- The `Result` record (uv.go lines 79–84). -/
structure Result where
  Stdout : List Char
  Stderr : List Char
  SystemTime : Int
  UserTime : Int

deriving instance DecidableEq for Result

/-- The data carried by a non-nil `cmd.ProcessState` after `Wait`. -/
structure ProcState where
  systemTime : Int
  userTime : Int

deriving instance DecidableEq for ProcState

/-- Classification of a non-nil error returned by `cmd.Run()`:
either a `*exec.ExitError` (process started and exited non-zero, with
`ExitCode()` and its `Error()` message), or any other error (start
failure, I/O failure, ...) with its message. -/
inductive RunError where
  | exitError (code : Int) (msg : List Char)
  | otherError (msg : List Char)

deriving instance DecidableEq for RunError

/-- The message of the underlying Go error, as used by the `%w` verb. -/
def RunError.message : RunError → List Char
  | .exitError _ m => m
  | .otherError m => m

/-- Digit-then-fraction printer `fmtFrac` from Go `time`: emit up to `prec`
low-order decimal digits of `v` (least significant first, written
right-to-left), skipping trailing zeros, preceded by `'.'` iff any digit was
emitted; returns the printed fraction and the remaining value. -/
def fmtFracAux : Nat → Nat → List Char → Bool → List Char × Nat
  | 0, v, acc, printed => (if printed then '.' :: acc else acc, v)
  | n + 1, v, acc, printed =>
    let digit := v % 10
    let printed2 := printed || decide (digit ≠ 0)
    fmtFracAux n (v / 10)
      (if printed2 then Char.ofNat (48 + digit) :: acc else acc) printed2

/-- Entry point for `fmtFrac`. -/
def fmtFrac (v : Nat) (prec : Nat) : List Char × Nat :=
  fmtFracAux prec v [] false

/-- Go `time`'s `fmtInt`: decimal digits of a natural number. -/
def fmtInt (v : Nat) : List Char := (toString v).toList

/-- Go `time.Duration.String()` on a nanosecond count, used by the `%v`
verb when `execute` formats its timeout error message. -/
def goDurationString (d : Int) : List Char :=
  let u := d.natAbs
  let core :=
    if u < 1000000000 then
      if u = 0 then strL "0s"
      else if u < 1000 then fmtInt u ++ strL "ns"
      else if u < 1000000 then
        let fv := fmtFrac u 3
        fmtInt fv.2 ++ fv.1 ++ strL "µs"
      else
        let fv := fmtFrac u 6
        fmtInt fv.2 ++ fv.1 ++ strL "ms"
    else
      let fv := fmtFrac u 9
      let v := fv.2
      let secs := fmtInt (v % 60) ++ fv.1 ++ ['s']
      let v2 := v / 60
      if v2 = 0 then secs
      else
        let mins := fmtInt (v2 % 60) ++ 'm' :: secs
        let v3 := v2 / 60
        if v3 = 0 then mins else fmtInt v3 ++ 'h' :: mins
  if d < 0 then '-' :: core else core

/-- The error values produced by the classification at the end of
`execute` (uv.go lines 157–167), carrying the data each `fmt.Errorf`
formats. -/
inductive ExecError where
  | timeout (durStr : List Char) (wrapped : RunError)
  | execFailedStderr (stderr : List Char)
  | execFailedCode (code : Int) (wrapped : RunError)
  | execFailedOther (wrapped : RunError)

deriving instance DecidableEq for ExecError

/-- The `Error()` message of each error `execute` returns, following the
exact `fmt.Errorf` format strings of uv.go lines 159, 163, 165 and 167. -/
def ExecError.message : ExecError → List Char
  | .timeout d w => strL "script execution timed out after " ++ d ++ strL ": " ++ w.message
  | .execFailedStderr s => strL "script execution failed: " ++ s
  | .execFailedCode c w =>
    strL "script execution failed with exit code " ++ (toString c).toList ++ strL ": " ++ w.message
  | .execFailedOther w => strL "script execution failed: " ++ w.message

/-- The subprocess invocation `execute` prepares (uv.go lines 130–146):
the argument vector after the program name `"uv"`, the working directory
(`none` = inherit), the environment override (`some xs` stands for
`os.Environ() ++ xs`, `none` = inherit unchanged), the connected standard
input, and the duration attached via `context.WithTimeout`. -/
structure ExecCall where
  argv : List (List Char)
  dir : Option (List Char)
  env : Option (List (List Char))
  stdin : Option (List Char)
  timeoutNs : Int

deriving instance DecidableEq for ExecCall

/-- The argument-vector construction of `execute` (uv.go lines 106–128):
`run`, the conditional `--python` flag, one `--with` flag per dependency,
the extra flags, the script path, then the call-site arguments or, when
those are absent, the configured default arguments. -/
def uvArgs (r : Runner) (scriptPath : List Char) (args : List (List Char)) : List (List Char) :=
  let a := [strL "run"]
  let a := if r.pythonVersion ≠ [] then a ++ [strL "--python", r.pythonVersion] else a
  let a := a ++ (r.dependencies.map (fun dep => [strL "--with", dep])).flatten
  let a := a ++ r.extraFlags
  let a := a ++ [scriptPath]
  let sa : List (List Char) :=
    if args.length > 0 then args
    else if r.scriptArgs.length > 0 then r.scriptArgs
    else []
  if sa.length > 0 then a ++ sa else a

/-- The full command preparation of `execute` (uv.go lines 102–146). -/
def executeCmd (r : Runner) (scriptPath scriptContent : List Char)
    (args : List (List Char)) : ExecCall :=
  { argv := uvArgs r scriptPath args
    dir := if r.workDir ≠ [] then some r.workDir else none
    env := if r.env.length > 0 then some r.env else none
    stdin := if scriptPath = strL "-" then some scriptContent else none
    timeoutNs := r.timeout }

/-- Oracle describing what `cmd.Run()` and the surrounding context did:
the returned error (`none` = exit status 0), whether `ctx.Err()` equals
`context.DeadlineExceeded` afterwards, the bytes captured in the two
buffers, and `cmd.ProcessState` (`none` exactly when the process never
started, e.g. the executable vanished from the search path or the context
was already expired before `Start`). -/
structure SysOutcome where
  runErr : Option RunError
  deadlineExceeded : Bool
  stdout : List Char
  stderr : List Char
  processState : Option ProcState

deriving instance DecidableEq for SysOutcome

/-- Result of running a block of Go code: a value, or a runtime panic. -/
inductive Outcome (α : Type) where
  | ok (val : α)
  | panic

deriving instance DecidableEq for Outcome

/-- The tail of `execute` (uv.go lines 148–169): construct the `Result`
from the buffers and `cmd.ProcessState` — a nil-pointer dereference
(panic) when the process never started, since `ProcessState.SystemTime()`
is called unconditionally — then classify: success, deadline-exceeded
timeout, non-zero exit with/without captured stderr, or other failure. -/
def executePost (r : Runner) (sys : SysOutcome) : Outcome (Result × Option ExecError) :=
  match sys.processState with
  | none => .panic
  | some ps =>
    let result : Result :=
      { Stdout := sys.stdout
        Stderr := sys.stderr
        SystemTime := ps.systemTime
        UserTime := ps.userTime }
    match sys.runErr with
    | none => .ok (result, none)
    | some err =>
      if sys.deadlineExceeded then
        .ok (result, some (.timeout (goDurationString r.timeout) err))
      else
        match err with
        | .exitError code m =>
          if result.Stderr ≠ [] then .ok (result, some (.execFailedStderr result.Stderr))
          else .ok (result, some (.execFailedCode code (.exitError code m)))
        | .otherError m => .ok (result, some (.execFailedOther (.otherError m)))

/-- The two pre-execution errors of `Run` and `RunFromString`; when one is
returned the `*Result` is nil and nothing was spawned. -/
inductive PreError where
  | scriptNotFound
  | emptyScript

deriving instance DecidableEq for PreError

/-- Observable behaviour of one `Run`/`RunFromString` call: either a
pre-execution error with a nil result and no subprocess, or a spawned
subprocess (with the exact command prepared) and the outcome of the code
that follows `cmd.Run()`. -/
inductive CallResult where
  | preError (e : PreError)
  | spawned (call : ExecCall) (outcome : Outcome (Result × Option ExecError))

deriving instance DecidableEq for CallResult

/-- Outcome of the `os.Stat(scriptPath)` call in `Run`, as seen through
`os.IsNotExist`: success, a does-not-exist error, or any other error
(permission denied, I/O error, ...). -/
inductive StatOutcome where
  | statOk
  | notExist
  | statOtherError

deriving instance DecidableEq for StatOutcome

/-- Embedding of `execute` (uv.go lines 102–170): spawn the prepared
command and process the outcome. -/
def executeModel (r : Runner) (scriptPath scriptContent : List Char)
    (args : List (List Char)) (sys : SysOutcome) : CallResult :=
  .spawned (executeCmd r scriptPath scriptContent args) (executePost r sys)

/-- Embedding of `Run` (uv.go lines 87–92): return the script-not-found
error (with nil result, no spawn) iff `os.IsNotExist` holds of the stat
error; any other stat outcome — success or a different error — proceeds
to `execute` with empty script content. -/
def Run (r : Runner) (stat : StatOutcome) (scriptPath : List Char)
    (args : List (List Char)) (sys : SysOutcome) : CallResult :=
  match stat with
  | .notExist => .preError .scriptNotFound
  | _ => executeModel r scriptPath [] args sys

/-- Embedding of `RunFromString` (uv.go lines 95–100): the empty-script
error exactly when the script equals the empty string, otherwise
`execute` with the `"-"` sentinel path and the script as stdin content. -/
def RunFromString (r : Runner) (script : List Char)
    (args : List (List Char)) (sys : SysOutcome) : CallResult :=
  if script = [] then .preError .emptyScript
  else executeModel r (strL "-") script args sys

/-- Pre-execution errors of the structured-output functions: a failed
`os.ReadFile`, or a `validateJSONPrint` error wrapped in
"invalid script format: %w".  Both return a nil result without spawning. -/
inductive SPreError where
  | readFileError
  | formatError (e : ValidateError)

deriving instance DecidableEq for SPreError

/-- Post-spawn outcome of a structured-output call. -/
inductive SOut (T : Type) where
  | runFailed (res : Result) (e : ExecError)
  | unmarshalFailed (res : Result)
  | ok (res : Result) (data : T)

deriving instance DecidableEq for SOut

/-- Observable behaviour of one structured-output call. `runPreError`
records that the inner `Run`/`RunFromString` returned its pre-execution
error, so the `StructuredResult` carries a nil embedded `Result` and no
subprocess was spawned. -/
inductive SCallResult (T : Type) where
  | preError (e : SPreError)
  | runPreError (e : PreError)
  | spawned (call : ExecCall) (out : Outcome (SOut T))

deriving instance DecidableEq for SCallResult

/-- Shared tail of the structured-output functions (uv.go lines 189–203 and
211–225): propagate a run error together with the (possibly nil) result;
on success decode the captured stdout with the caller's type's
`json.Unmarshal` (the oracle `dec`), reporting `unmarshalFailed` with the
raw populated result on decode failure and the decoded data on success. -/
def structuredPost {T : Type} (dec : List Char → Option T) : CallResult → SCallResult T
  | .preError e => .runPreError e
  | .spawned call .panic => .spawned call .panic
  | .spawned call (.ok (res, some e)) => .spawned call (.ok (.runFailed res e))
  | .spawned call (.ok (res, none)) =>
    match dec res.Stdout with
    | none => .spawned call (.ok (.unmarshalFailed res))
    | some d => .spawned call (.ok (.ok res d))

/-- Embedding of `StructuredOutput` (uv.go lines 179–203): read the file
(oracle `fileContent`), validate the marker, run, then decode. -/
def StructuredOutput {T : Type} (dec : List Char → Option T) (r : Runner)
    (fileContent : Option (List Char)) (stat : StatOutcome) (scriptPath : List Char)
    (args : List (List Char)) (sys : SysOutcome) : SCallResult T :=
  match fileContent with
  | none => .preError .readFileError
  | some content =>
    match validateJSONPrint content with
    | some e => .preError (.formatError e)
    | none => structuredPost dec (Run r stat scriptPath args sys)

/-- Embedding of `StructuredOutputFromString` (uv.go lines 206–225). -/
def StructuredOutputFromString {T : Type} (dec : List Char → Option T) (r : Runner)
    (script : List Char) (args : List (List Char)) (sys : SysOutcome) : SCallResult T :=
  match validateJSONPrint script with
  | some e => .preError (.formatError e)
  | none => structuredPost dec (RunFromString r script args sys)

/-- `Run` with the pointer receiver threaded explicitly: the Go method
takes `r *Runner` and its body contains no assignment to any field of
`r`, so the receiver handed back to the caller is the unchanged record. -/
def RunSt (r : Runner) (stat : StatOutcome) (scriptPath : List Char)
    (args : List (List Char)) (sys : SysOutcome) : Runner × CallResult :=
  (r, Run r stat scriptPath args sys)

/-- `RunFromString` with the pointer receiver threaded explicitly; the
body contains no assignment to any field of the receiver. -/
def RunFromStringSt (r : Runner) (script : List Char)
    (args : List (List Char)) (sys : SysOutcome) : Runner × CallResult :=
  (r, RunFromString r script args sys)

/-- `StructuredOutput` with the `*Runner` argument threaded explicitly;
the body contains no assignment to any field of the runner. -/
def StructuredOutputSt {T : Type} (dec : List Char → Option T) (r : Runner)
    (fileContent : Option (List Char)) (stat : StatOutcome) (scriptPath : List Char)
    (args : List (List Char)) (sys : SysOutcome) : Runner × SCallResult T :=
  (r, StructuredOutput dec r fileContent stat scriptPath args sys)

/-- `StructuredOutputFromString` with the `*Runner` argument threaded
explicitly; the body contains no assignment to any field of the runner. -/
def StructuredOutputFromStringSt {T : Type} (dec : List Char → Option T) (r : Runner)
    (script : List Char) (args : List (List Char)) (sys : SysOutcome) : Runner × SCallResult T :=
  (r, StructuredOutputFromString dec r script args sys)

/-- A run outcome where the subprocess exits 0 with no output. -/
def sysOk0 : SysOutcome :=
  { runErr := none, deadlineExceeded := false, stdout := [], stderr := []
    processState := some ⟨0, 0⟩ }

/-- A run outcome where the subprocess exits 0 printing `not-json`. -/
def sysNotJson : SysOutcome := { sysOk0 with stdout := strL "not-json" }

/-- A run outcome where the subprocess exits 7 with stderr `boom`. -/
def sysBoom : SysOutcome :=
  { runErr := some (.exitError 7 (strL "exit status 7")), deadlineExceeded := false
    stdout := [], stderr := strL "boom", processState := some ⟨0, 0⟩ }

/-- A run outcome where the deadline fired and the process was killed
after printing `partial` to stdout. -/
def sysKilled : SysOutcome :=
  { runErr := some (.exitError (-1) (strL "signal: killed")), deadlineExceeded := true
    stdout := strL "partial", stderr := [], processState := some ⟨0, 0⟩ }

/-- A run outcome where the subprocess never started (the `uv` executable
vanished from the search path between `New` and the call, or the context
was already expired), so `cmd.ProcessState` is nil. -/
def sysStartFail : SysOutcome :=
  { runErr := some (.otherError (strL "exec: uv: executable file not found in PATH"))
    deadlineExceeded := false, stdout := [], stderr := [], processState := none }

/-- A `json.Unmarshal` oracle for a target type that rejects the exact
text `not-json` and accepts anything else. -/
def decNotJson : List Char → Option Nat :=
  fun s => if s = strL "not-json" then none else some 0

theorem trimSpace_eq_nil_iff (s : List Char) :
    trimSpace s = [] ↔ ∀ c ∈ s, goIsSpace c = true := by
  unfold trimSpace
  constructor
  · intro h
    have h2 : (s.dropWhile goIsSpace).reverse.dropWhile goIsSpace = [] := by
      have := congrArg List.reverse h
      simpa using this
    have h3 := List.dropWhile_eq_nil_iff.mp h2
    have h4 : ∀ c ∈ s.dropWhile goIsSpace, goIsSpace c = true := by
      intro c hc
      exact h3 c (List.mem_reverse.mpr hc)
    intro c hc
    rw [← List.takeWhile_append_dropWhile (p := goIsSpace) (l := s)] at hc
    rcases List.mem_append.mp hc with h5 | h5
    · exact List.mem_takeWhile_imp h5
    · exact h4 c h5
  · intro h
    have : s.dropWhile goIsSpace = [] := List.dropWhile_eq_nil_iff.mpr h
    simp [this]

theorem dropCR_all {l : List Char} (h : ∀ c ∈ l, goIsSpace c = true) :
    ∀ c ∈ dropCR l, goIsSpace c = true := by
  intro c hc
  apply h
  unfold dropCR at hc
  split at hc
  · exact List.Sublist.subset (List.dropLast_sublist _) hc
  · exact hc

theorem scanLinesAux_all (s : List Char) :
    ∀ acc : List Char, (∀ c ∈ s, goIsSpace c = true) → (∀ c ∈ acc, goIsSpace c = true) →
      ∀ l ∈ scanLinesAux s acc, ∀ c ∈ l, goIsSpace c = true := by
  induction s with
  | nil =>
    intro acc _ hacc l hl
    simp only [scanLinesAux, List.mem_singleton] at hl
    subst hl
    exact dropCR_all (fun c hc => hacc c (List.mem_reverse.mp hc))
  | cons ch rest ih =>
    intro acc hs hacc l hl
    simp only [scanLinesAux] at hl
    by_cases hch : ch = '\n'
    · rw [if_pos hch] at hl
      rcases List.mem_cons.mp hl with h1 | h1
      · subst h1
        exact dropCR_all (fun c hc => hacc c (List.mem_reverse.mp hc))
      · by_cases hrest : rest.isEmpty
        · rw [if_pos hrest] at h1
          simp at h1
        · rw [if_neg hrest] at h1
          exact ih [] (fun c hc => hs c (List.mem_cons_of_mem _ hc)) (by simp) l h1
    · rw [if_neg hch] at hl
      refine ih (ch :: acc) (fun c hc => hs c (List.mem_cons_of_mem _ hc)) ?_ l hl
      intro c hc
      rcases List.mem_cons.mp hc with h1 | h1
      · subst h1
        exact hs c (List.mem_cons_self _ _)
      · exact hacc c h1

theorem scanLines_all (s : List Char) (hs : ∀ c ∈ s, goIsSpace c = true) :
    ∀ l ∈ scanLines s, ∀ c ∈ l, goIsSpace c = true := by
  unfold scanLines
  split
  · simp
  · exact scanLinesAux_all s [] hs (by simp)

theorem lastNonEmptyLine_blank {lines : List (List Char)}
    (h : ∀ l ∈ lines, trimSpace l = []) : lastNonEmptyLine lines = [] := by
  unfold lastNonEmptyLine
  have hf : lines.reverse.find? (fun l => !(trimSpace l).isEmpty) = none := by
    rw [List.find?_eq_none]
    intro l hl
    have := h l (List.mem_reverse.mp hl)
    simp [this]
  rw [hf]

theorem applyOptions_timeout_eq (opts : List (Runner → Runner))
    (h : ∀ o ∈ opts, ∀ r, (o r).timeout = r.timeout) (r : Runner) :
    (applyOptions r opts).timeout = r.timeout := by
  induction opts generalizing r with
  | nil => rfl
  | cons o os ih =>
    have step : applyOptions r (o :: os) = applyOptions (o r) os := rfl
    rw [step, ih (fun o2 ho2 => h o2 (List.mem_cons_of_mem _ ho2)) (o r)]
    exact h o (List.mem_cons_self _ _) r

/-- Claim C7: for every path whose stat reports does-not-exist, `Run`
returns the script-not-found error with a nil result and without spawning
the subprocess. -/
theorem c7_script_not_found (r : Runner) (p : List Char)
    (args : List (List Char)) (sys : SysOutcome) :
    Run r .notExist p args sys = .preError .scriptNotFound := rfl

/-- Claim C8 (code bug): when the subprocess fails to start (for example
the `uv` executable disappears from the search path between construction
and the call), `cmd.ProcessState` is nil and the result-construction step
after `cmd.Run()` dereferences it, so `execute` panics instead of
returning an ordinary error value. -/
theorem c8_start_failure_panics (r : Runner) (p c : List Char)
    (args : List (List Char)) :
    executePost r sysStartFail = .panic
    ∧ executeModel r p c args sysStartFail = .spawned (executeCmd r p c args) .panic :=
  ⟨rfl, rfl⟩

/-- Claim C9: every operation leaves the runner's seven configuration
fields unchanged (the receiver handed back equals the original record),
so a second sequential call with the same runner behaves identically. -/
theorem c9_immutability {T : Type} (dec : List Char → Option T) (r : Runner)
    (stat : StatOutcome) (p script : List Char) (fileContent : Option (List Char))
    (args : List (List Char)) (sys : SysOutcome) :
    (RunSt r stat p args sys).1 = r
    ∧ (RunFromStringSt r script args sys).1 = r
    ∧ (StructuredOutputSt dec r fileContent stat p args sys).1 = r
    ∧ (StructuredOutputFromStringSt dec r script args sys).1 = r
    ∧ RunSt (RunSt r stat p args sys).1 stat p args sys = RunSt r stat p args sys :=
  ⟨rfl, rfl, rfl, rfl, rfl⟩

/-- Claim C10: when the stat call fails with an error other than
does-not-exist (for example permission denied), `Run` does not return the
script-not-found error and instead proceeds to spawn the subprocess with
that path. -/
theorem c10_stat_other_error (r : Runner) (p : List Char)
    (args : List (List Char)) (sys : SysOutcome) :
    Run r .statOtherError p args sys = .spawned (executeCmd r p [] args) (executePost r sys)
    ∧ Run r .statOtherError p args sys ≠ .preError .scriptNotFound := by
  refine ⟨rfl, ?_⟩
  simp [Run, executeModel]

/-- Claim C1: for every runner and every execution, the argument vector is
`run`, then `--python` and the version iff one is configured, then one
`--with` flag per dependency in order, then the extra flags, then the
script source (the path for `Run`, the `-` sentinel for `RunFromString`),
then the script arguments, where non-empty call-site arguments replace the
configured defaults entirely and the defaults are used only when no
call-site arguments are given. -/
theorem c1_command_line (r : Runner) (p script : List Char)
    (args : List (List Char)) (sys : SysOutcome) (hscript : script ≠ []) :
    uvArgs r p args =
      [strL "run"]
        ++ (if r.pythonVersion ≠ [] then [strL "--python", r.pythonVersion] else [])
        ++ (r.dependencies.map (fun dep => [strL "--with", dep])).flatten
        ++ r.extraFlags ++ [p]
        ++ (if args ≠ [] then args else r.scriptArgs)
    ∧ (executeCmd r p script args).argv = uvArgs r p args
    ∧ Run r .statOk p args sys = .spawned (executeCmd r p [] args) (executePost r sys)
    ∧ RunFromString r script args sys
        = .spawned (executeCmd r (strL "-") script args) (executePost r sys) := by
  refine ⟨?_, rfl, rfl, by simp [RunFromString, hscript, executeModel]⟩
  simp only [uvArgs]
  by_cases hpv : r.pythonVersion = [] <;>
    rcases args with _ | ⟨a, as⟩ <;>
    rcases hsa : r.scriptArgs with _ | ⟨b, bs⟩ <;>
    simp [hpv, hsa]

/-- Claim C2 (counterexample): a non-zero exit with captured stderr `boom`
returns an error whose message is `script execution failed: boom`, not the
stderr text verbatim. -/
theorem c2_counterexample :
    executePost initRunner sysBoom
      = .ok (⟨[], strL "boom", 0, 0⟩, some (.execFailedStderr (strL "boom")))
    ∧ ExecError.message (.execFailedStderr (strL "boom")) ≠ strL "boom" := by
  exact ⟨rfl, by decide⟩

/-- Claim C2 (amended): a non-zero exit that is not a timeout returns the
populated result together with an error; when stderr text was captured the
error's message is the captured stderr prefixed with
`script execution failed: `, otherwise the message encodes the numeric
exit code. -/
theorem c2_nonzero_exit (r : Runner) (sys : SysOutcome) (code : Int)
    (m : List Char) (ps : ProcState)
    (h1 : sys.runErr = some (.exitError code m))
    (h2 : sys.deadlineExceeded = false)
    (h3 : sys.processState = some ps) :
    executePost r sys
      = .ok (⟨sys.stdout, sys.stderr, ps.systemTime, ps.userTime⟩,
          some (if sys.stderr = [] then .execFailedCode code (.exitError code m)
                else .execFailedStderr sys.stderr))
    ∧ ExecError.message (.execFailedStderr sys.stderr)
        = strL "script execution failed: " ++ sys.stderr
    ∧ ExecError.message (.execFailedCode code (.exitError code m))
        = strL "script execution failed with exit code "
            ++ (toString code).toList ++ strL ": " ++ m := by
  refine ⟨?_, rfl, rfl⟩
  simp only [executePost, h1, h2, h3]
  by_cases hs : sys.stderr = [] <;> simp [hs]

/-- Witness for the amended C2 at the concrete `boom` outcome. -/
theorem c2_nonzero_exit_witness :
    strL "boom" ≠ []
    ∧ executePost initRunner sysBoom
        = .ok (⟨[], strL "boom", 0, 0⟩, some (.execFailedStderr (strL "boom"))) := by
  refine ⟨by decide, ?_⟩
  have h := (c2_nonzero_exit initRunner sysBoom 7 (strL "exit status 7") ⟨0, 0⟩ rfl rfl rfl).1
  simpa [sysBoom] using h

/-- Claim C3 (counterexample): the all-whitespace script consisting of one
space is not rejected as empty; the subprocess layer is reached. -/
theorem c3_counterexample :
    RunFromString initRunner (strL " ") [] sysOk0 ≠ .preError .emptyScript := by
  decide

/-- Claim C3 (amended): `RunFromString` returns the empty-script error with
a nil result and no spawned subprocess exactly for the empty string; every
non-empty script — including all-whitespace ones — is passed on to the
subprocess layer. -/
theorem c3_empty_script (r : Runner) (args : List (List Char)) (sys : SysOutcome)
    (script : List Char) (h : script ≠ []) :
    RunFromString r [] args sys = .preError .emptyScript
    ∧ RunFromString r script args sys
        = .spawned (executeCmd r (strL "-") script args) (executePost r sys) := by
  exact ⟨rfl, by simp [RunFromString, h, executeModel]⟩

/-- Witness for the amended C3 at the one-space script. -/
theorem c3_empty_script_witness :
    strL " " ≠ [] ∧ RunFromString initRunner [] [] sysOk0 = .preError .emptyScript := by
  exact ⟨by decide, (c3_empty_script initRunner [] sysOk0 (strL " ") (by decide)).1⟩

/-- Claim C4: the runner built by `New` carries a 30-second timeout when no
timeout option is among the applied options; every execution attaches a
deadline derived from the configured timeout to the spawned command; and
when the deadline (rather than a normal exit) caused the termination, the
call returns the timeout error wrapping the underlying termination error
alongside the populated result. -/
theorem c4_timeout_enforcement (opts : List (Runner → Runner))
    (hopts : ∀ o ∈ opts, ∀ r, (o r).timeout = r.timeout)
    (r : Runner) (sys : SysOutcome) (e : RunError) (ps : ProcState)
    (p c : List Char) (args : List (List Char))
    (h1 : sys.runErr = some e) (h2 : sys.deadlineExceeded = true)
    (h3 : sys.processState = some ps) :
    New true opts = some (applyOptions initRunner opts)
    ∧ (applyOptions initRunner opts).timeout = 30 * 1000000000
    ∧ (∀ v r2, (WithPython v r2).timeout = r2.timeout)
    ∧ (∀ v r2, (WithExtraFlags v r2).timeout = r2.timeout)
    ∧ (∀ v r2, (WithEnv v r2).timeout = r2.timeout)
    ∧ (∀ v r2, (WithWorkDir v r2).timeout = r2.timeout)
    ∧ (∀ v r2, (WithDependencies v r2).timeout = r2.timeout)
    ∧ (∀ v r2, (WithScriptArgs v r2).timeout = r2.timeout)
    ∧ (executeCmd r p c args).timeoutNs = r.timeout
    ∧ executePost r sys
        = .ok (⟨sys.stdout, sys.stderr, ps.systemTime, ps.userTime⟩,
            some (.timeout (goDurationString r.timeout) e)) := by
  refine ⟨rfl, applyOptions_timeout_eq opts hopts initRunner, fun v r2 => rfl,
    fun v r2 => rfl, fun v r2 => rfl, fun v r2 => rfl, fun v r2 => rfl,
    fun v r2 => rfl, rfl, ?_⟩
  simp only [executePost, h1, h2, h3, if_pos]

/-- Witness for C4 at a deadline-exceeded kill with one non-timeout option
applied. -/
theorem c4_timeout_enforcement_witness :
    (applyOptions initRunner [WithPython (strL "3.12")]).timeout = 30 * 1000000000
    ∧ executePost initRunner sysKilled
        = .ok (⟨strL "partial", [], 0, 0⟩,
            some (.timeout (goDurationString (30 * 1000000000))
              (.exitError (-1) (strL "signal: killed")))) := by
  have h := c4_timeout_enforcement [WithPython (strL "3.12")]
    (by intro o ho r2; rw [List.mem_singleton] at ho; subst ho; rfl)
    initRunner sysKilled (.exitError (-1) (strL "signal: killed")) ⟨0, 0⟩
    [] [] [] rfl rfl rfl
  exact ⟨h.2.1, by simpa [sysKilled] using h.2.2.2.2.2.2.2.2.2⟩

/-- Claim C5: structured-output pre-validation succeeds exactly when the
last non-blank line of the script contains the marker `print(json.dumps`;
a script whose last non-blank line is `print(json.dumps(x))` passes, one
ending in `print(x)` is rejected with the invalid-script-format error, and
on any rejection both structured-output functions return before the
subprocess layer with a nil result. -/
theorem c5_marker_validation {T : Type} (dec : List Char → Option T) (r : Runner)
    (stat : StatOutcome) (p : List Char) (args : List (List Char)) (sys : SysOutcome)
    (script : List Char) :
    (validateJSONPrint script = none
       ↔ containsSub (lastNonEmptyLine (scanLines script)) markerL = true)
    ∧ validateJSONPrint (strL "print(json.dumps(x))") = none
    ∧ validateJSONPrint (strL "print(x)") = some .invalidFormat
    ∧ (∀ e, validateJSONPrint script = some e →
        StructuredOutput dec r (some script) stat p args sys = .preError (.formatError e)
        ∧ StructuredOutputFromString dec r script args sys = .preError (.formatError e)) := by
  refine ⟨⟨?_, ?_⟩, by decide, by decide, ?_⟩
  · intro h
    by_cases h1 : trimSpace script = []
    · simp [validateJSONPrint, h1] at h
    · by_cases h2 : containsSub (lastNonEmptyLine (scanLines script)) markerL = true
      · exact h2
      · simp [validateJSONPrint, h1, h2] at h
  · intro h
    have h1 : trimSpace script ≠ [] := by
      intro h1
      have hall : ∀ c ∈ script, goIsSpace c = true := (trimSpace_eq_nil_iff script).1 h1
      have hblank : ∀ l ∈ scanLines script, trimSpace l = [] :=
        fun l hl => (trimSpace_eq_nil_iff l).2 (scanLines_all script hall l hl)
      rw [lastNonEmptyLine_blank hblank] at h
      exact absurd h (by decide)
    simp [validateJSONPrint, h1, h]
  · intro e he
    exact ⟨by simp [StructuredOutput, he], by simp [StructuredOutputFromString, he]⟩

/-- Witness for C5 at the `print(x)` script: the handwritten rejection
propagates to `StructuredOutputFromString` without a spawn. -/
theorem c5_marker_validation_witness :
    validateJSONPrint (strL "print(x)") = some .invalidFormat
    ∧ StructuredOutputFromString decNotJson initRunner (strL "print(x)") [] sysOk0
        = .preError (.formatError .invalidFormat) := by
  refine ⟨by decide, ?_⟩
  exact ((c5_marker_validation decNotJson initRunner .statOk (strL "s.py") [] sysOk0
    (strL "print(x)")).2.2.2 .invalidFormat (by decide)).2

/-- Claim C6: when a structured-output execution itself succeeds (exit 0)
but the captured stdout fails to decode into the caller's target type, the
call returns the unmarshal-failed error together with the populated raw
result; when decoding succeeds, the decoded value is returned as the data
with no error.  Both the file and the string variants behave this way. -/
theorem c6_unmarshal {T : Type} (dec : List Char → Option T) (r : Runner)
    (content p : List Char) (stat : StatOutcome) (args : List (List Char))
    (sys : SysOutcome) (call1 call2 : ExecCall) (res1 res2 : Result)
    (hval : validateJSONPrint content = none)
    (hrun : Run r stat p args sys = .spawned call1 (.ok (res1, none)))
    (hrunS : RunFromString r content args sys = .spawned call2 (.ok (res2, none))) :
    (dec res1.Stdout = none →
      StructuredOutput dec r (some content) stat p args sys
        = .spawned call1 (.ok (.unmarshalFailed res1)))
    ∧ (∀ d, dec res1.Stdout = some d →
      StructuredOutput dec r (some content) stat p args sys
        = .spawned call1 (.ok (.ok res1 d)))
    ∧ (dec res2.Stdout = none →
      StructuredOutputFromString dec r content args sys
        = .spawned call2 (.ok (.unmarshalFailed res2)))
    ∧ (∀ d, dec res2.Stdout = some d →
      StructuredOutputFromString dec r content args sys
        = .spawned call2 (.ok (.ok res2 d))) := by
  refine ⟨?_, ?_, ?_, ?_⟩
  · intro hdec
    simp [StructuredOutput, hval, hrun, structuredPost, hdec]
  · intro d hdec
    simp [StructuredOutput, hval, hrun, structuredPost, hdec]
  · intro hdec
    simp [StructuredOutputFromString, hval, hrunS, structuredPost, hdec]
  · intro d hdec
    simp [StructuredOutputFromString, hval, hrunS, structuredPost, hdec]

/-- Witness for C6: a marker-valid script that exits 0 printing `not-json`,
decoded by an oracle that rejects exactly that text, yields the
unmarshal-failed outcome carrying the populated raw result. -/
theorem c6_unmarshal_witness :
    decNotJson (strL "not-json") = none
    ∧ StructuredOutput decNotJson initRunner (some (strL "print(json.dumps(x))"))
        .statOk (strL "s.py") [] sysNotJson
      = .spawned (executeCmd initRunner (strL "s.py") [] [])
          (.ok (.unmarshalFailed ⟨strL "not-json", [], 0, 0⟩)) := by
  refine ⟨by decide, ?_⟩
  exact (c6_unmarshal decNotJson initRunner (strL "print(json.dumps(x))") (strL "s.py")
    .statOk [] sysNotJson (executeCmd initRunner (strL "s.py") [] [])
    (executeCmd initRunner (strL "-") (strL "print(json.dumps(x))") [])
    ⟨strL "not-json", [], 0, 0⟩ ⟨strL "not-json", [], 0, 0⟩
    (by decide) rfl rfl).1 rfl

/-- Witness for C1 at a concrete inline execution. -/
theorem c1_command_line_witness :
    strL "print()" ≠ []
    ∧ RunFromString initRunner (strL "print()") [] sysOk0
        = .spawned (executeCmd initRunner (strL "-") (strL "print()") [])
            (executePost initRunner sysOk0) := by
  exact ⟨by decide,
    (c1_command_line initRunner (strL "s.py") (strL "print()") [] sysOk0 (by decide)).2.2.2⟩
